import Mathlib

/-!
Shallow embedding of `src/bot.py` (a Minecraft status Discord bot).

The pure logic of the program — RCON reply parsing and time-of-day
bucketing (`get_time_of_day_via_rcon`), snapshot assembly
(`fetch_server_status`), rendering (`format_status`), the scheduled
publish step (`update_status`) and the on-demand command
(`manual_status`) — is translated into total Lean functions.  Network
effects are made explicit: the outcome of each external interaction
(TCP probe, mcstatus status/query calls, RCON session, Discord
edit/send) is passed in as data, and the list of external services a
function invokes is returned as an explicit trace.
-/

namespace McBot

/-- Whitespace for Python `str.split()` with no argument: space, tab,
newline, carriage return, vertical tab, form feed. -/
def pyIsSpace (c : Char) : Bool :=
  c.isWhitespace || c = Char.ofNat 11 || c = Char.ofNat 12

/-- `str.split()` with no separator: split on runs of whitespace,
producing no empty tokens.  Accumulator holds the current token
reversed. -/
def splitWsAux : List Char → List Char → List (List Char)
  | [], cur => if cur.isEmpty then [] else [cur.reverse]
  | c :: rest, cur =>
    if pyIsSpace c then
      if cur.isEmpty then splitWsAux rest [] else cur.reverse :: splitWsAux rest []
    else splitWsAux rest (c :: cur)

/-- Tokens of a string under Python `str.split()` semantics.  (The
source calls `.strip()` first, which is redundant before a
no-argument `split`.) -/
def splitWs (s : String) : List (List Char) :=
  splitWsAux s.data []

/-- Numeric value of a decimal digit character. -/
def digitVal (c : Char) : Nat := c.toNat - '0'.toNat

/-- Digits of a Python integer literal after the first digit: decimal
digits optionally separated by single underscores (no trailing or
doubled underscore). -/
def pyDigitsAux : List Char → Nat → Option Nat
  | [], acc => some acc
  | '_' :: c :: rest, acc =>
    if c.isDigit then pyDigitsAux rest (acc * 10 + digitVal c) else none
  | c :: rest, acc =>
    if c.isDigit then pyDigitsAux rest (acc * 10 + digitVal c) else none

/-- A nonempty run of decimal digits with optional single underscore
separators, as accepted by Python `int()`. -/
def pyDigits : List Char → Option Nat
  | [] => none
  | c :: rest => if c.isDigit then pyDigitsAux rest (digitVal c) else none

/-- Python `int(token)` on a whitespace-free token: optional sign
followed by digits; anything else raises `ValueError`, modelled as
`none`. -/
def pyInt : List Char → Option Int
  | '-' :: rest => (pyDigits rest).map (fun n => -(n : Int))
  | '+' :: rest => (pyDigits rest).map (fun n => (n : Int))
  | t => (pyDigits t).map (fun n => (n : Int))

/-- `int(response.strip().split()[-1])`: the final whitespace-delimited
token parsed as a Python integer.  `none` models the `IndexError`
(no tokens) or `ValueError` (non-numeric token) raised inside the
`try` block. -/
def lastTokenInt (response : String) : Option Int :=
  ((splitWs response).getLast?).bind pyInt

/-- Outcome of the RCON session (`Client(ip, port)`, `login`,
`run("time query daytime")`): either some exception was raised, or a
reply string was obtained. -/
inductive RconSession where
  | err
  | ok (response : String)
deriving DecidableEq

/-- `get_time_of_day_via_rcon` from `src/bot.py`.  The `ip`/`port`
arguments of the source only feed the session, which is passed here as
data; `password` is the third source argument.  An empty password
returns the "not configured" sentinel before any network interaction;
every exception inside the `try` (session failure, missing or
non-numeric final token) collapses to the "unavailable" sentinel;
otherwise the parsed tick count is bucketed by the source's
`<6000 / <12000 / <18000 / else` chain. -/
def get_time_of_day_via_rcon (password : String) (session : RconSession) : String :=
  if password = "" then "🚫 RCON not configured"
  else
    match session with
    | RconSession.err => "⚠️ RCON unavailable"
    | RconSession.ok response =>
      match lastTokenInt response with
      | none => "⚠️ RCON unavailable"
      | some ticks =>
        if ticks < 6000 then "🌞 Morning"
        else if ticks < 12000 then "☀️ Midday"
        else if ticks < 18000 then "🌇 Evening"
        else "🌙 Night"

/-- Python `x or dflt` for an optional string: `None` and `""` are
falsy and replaced by the default. -/
def pyOrStr (v : Option String) (dflt : String) : String :=
  match v with
  | none => dflt
  | some s => if s = "" then dflt else s

/-- `', '.join(xs)`. -/
def joinWithCommas : List String → String
  | [] => ""
  | [x] => x
  | x :: y :: ys => x ++ ", " ++ joinWithCommas (y :: ys)

/-- `'\n'.join(lines)`. -/
def joinLines : List String → String
  | [] => ""
  | [l] => l
  | l :: m :: ls => l ++ "\n" ++ joinLines (m :: ls)

/-- Python `s.startswith(p)`. -/
def strStartsWith (s p : String) : Bool :=
  p.data.isPrefixOf s.data

/-- The module-level configuration read from the environment that the
renderer and assembler consult (`HOST_IP`, `HOST_PORT`, `MC_VERSION`,
`RCON_PASS`). -/
structure Config where
  HOST_IP : String
  HOST_PORT : Int
  MC_VERSION : String
  RCON_PASS : String
deriving DecidableEq

/-- The lines list built by `format_status` before the final
`"\n".join`.  Mirrors the source: four header lines, then either the
seven online field lines (when `mc_status` starts with the green
glyph) or the version line alone, then the five host-block lines. -/
def format_status_lines (cfg : Config) (mc_status players : String)
    (player_list : List String) (motd time_label game_mode map_name : Option String)
    (host_is_up : Bool) : List String :=
  let motd := pyOrStr motd "Unknown"
  let time_label := pyOrStr time_label "Unknown"
  let game_mode := pyOrStr game_mode "Unknown"
  let map_name := pyOrStr map_name "Unknown"
  ["# **Server Stats**", "", "> **Minecraft Server**:", "> " ++ mc_status]
  ++ (if strStartsWith mc_status "🟢" then
        ["> Players: " ++ players,
         "> Online Players: " ++
           (if player_list.isEmpty then "(none)" else joinWithCommas player_list),
         "> MOTD: " ++ motd,
         "> Time of Day: " ++ time_label,
         "> Map: " ++ map_name,
         "> Version: " ++ cfg.MC_VERSION,
         "> Game Mode: " ++ game_mode]
      else
        ["> Version: " ++ cfg.MC_VERSION])
  ++ ["", "> **Host Server**:",
      "> " ++ (if host_is_up then "🟢 Online" else "🔴 Offline"),
      "> Host IP: " ++ cfg.HOST_IP,
      "> Host Port: " ++ toString cfg.HOST_PORT]

/-- `format_status` from `src/bot.py`: the joined rendering. -/
def format_status (cfg : Config) (mc_status players : String)
    (player_list : List String) (motd time_label game_mode map_name : Option String)
    (host_is_up : Bool) : String :=
  joinLines (format_status_lines cfg mc_status players player_list
    motd time_label game_mode map_name host_is_up)

/-- Reply of `server.async_status()`: the fields the source reads. -/
structure StatusReply where
  players_online : Int
  players_max : Int
deriving DecidableEq

/-- Reply of `server.async_query()`: the fields the source reads.
Attributes fetched with `getattr(_, _, default)` or guarded by `or`
are modelled as options (`none` = attribute absent / `None`). -/
structure QueryReply where
  motd_raw : Option String
  motd_str : String
  players_list : Option (List String)
  map_name : Option String
  gamemode : Option String
deriving DecidableEq

/-- Combined outcome of the two awaited calls inside the `try` block of
`fetch_server_status`.  An exception in either call aborts before any
snapshot field is assigned, so one outcome covers both. -/
inductive QueryOutcome where
  | err
  | ok (status : StatusReply) (query : QueryReply)
deriving DecidableEq

/-- External services `fetch_server_status` can invoke: the TCP probe
(`check_tcp_port`), the mcstatus status/query pair, and the RCON time
resolver (`get_time_of_day_via_rcon`). -/
inductive ExtCall where
  | probe
  | query
  | rcon
deriving DecidableEq

/-- The dict returned by `fetch_server_status`. -/
structure SnapshotData where
  host_is_up : Bool
  mc_status : String
  motd : Option String
  time_label : Option String
  game_mode : Option String
  map_name : Option String
  players : String
  player_list : List String
deriving DecidableEq

/-- The default field values set before the `try` block: game server
offline, every derived field absent. -/
def offline_defaults (host_is_up : Bool) : SnapshotData :=
  { host_is_up := host_is_up
    mc_status := "🔴 Offline or Unreachable"
    motd := none
    time_label := none
    game_mode := none
    map_name := none
    players := "None"
    player_list := [] }

/-- `fetch_server_status` from `src/bot.py`.  The probe result and the
outcomes of the external calls are passed as data; the second
component is the trace of external services actually invoked.  When
the host is down the function returns early with the defaults (the
source writes `"host_is_up": False` literally); when the query pair
fails the defaults survive except `host_is_up`; on success all fields
are populated and the RCON resolver is called last. -/
def fetch_server_status (cfg : Config) (host_is_up : Bool) (q : QueryOutcome)
    (rcon : RconSession) : SnapshotData × List ExtCall :=
  if host_is_up = false then
    (offline_defaults false, [ExtCall.probe])
  else
    match q with
    | QueryOutcome.err => (offline_defaults host_is_up, [ExtCall.probe, ExtCall.query])
    | QueryOutcome.ok st qu =>
      ({ host_is_up := host_is_up
         mc_status := "🟢 Online"
         motd := some (match qu.motd_raw with | some r => r | none => qu.motd_str)
         time_label := some (get_time_of_day_via_rcon cfg.RCON_PASS rcon)
         game_mode := some (qu.gamemode.getD "Survival")
         map_name := some (qu.map_name.getD "Unknown")
         players := toString st.players_online ++ "/" ++ toString st.players_max
         player_list := qu.players_list.getD [] },
       [ExtCall.probe, ExtCall.query, ExtCall.rcon])

/-- A Discord publish attempt made by the bot: editing the held status
message, or sending a new message. -/
inductive PublishAction where
  | edit (content : String)
  | send (content : String)
deriving DecidableEq

/-- Outcome of the Discord call in a publish attempt: success (for a
send, carrying the id of the created message) or an exception. -/
inductive ChatOutcome where
  | ok (newId : Nat)
  | err
deriving DecidableEq

/-- Result of one scheduled tick: the value of the global
`status_message` handle afterwards, the publish attempts made, and
whether the `except` branch logged an error. -/
structure TickResult where
  handle : Option Nat
  attempts : List PublishAction
  errorLogged : Bool
deriving DecidableEq

/-- The host-down banner literal from `update_status`. -/
def fallback_banner : String := "🔴 Host down — Eggroll fell off the grid. 🌐"

/-- The `try/except` publish step shared by both branches of
`update_status`: edit the held message if there is one, else send a
new one; an exception is caught and logged, and — because the
assignment `status_message = await channel.send(...)` never executes
on failure — the handle is left unchanged. -/
def publish_edit_or_send (handle : Option Nat) (content : String)
    (chat : ChatOutcome) : TickResult :=
  match handle with
  | some m =>
    match chat with
    | ChatOutcome.ok _ => ⟨some m, [PublishAction.edit content], false⟩
    | ChatOutcome.err => ⟨some m, [PublishAction.edit content], true⟩
  | none =>
    match chat with
    | ChatOutcome.ok newId => ⟨some newId, [PublishAction.send content], false⟩
    | ChatOutcome.err => ⟨none, [PublishAction.send content], true⟩

/-- The body of one `update_status` tick after `fetch_server_status`
returned `data`: host down publishes the fallback banner, host up
publishes the full `format_status` rendering, both through the same
edit-or-send step. -/
def update_status (cfg : Config) (handle : Option Nat) (data : SnapshotData)
    (chat : ChatOutcome) : TickResult :=
  if data.host_is_up = false then
    publish_edit_or_send handle fallback_banner chat
  else
    publish_edit_or_send handle
      (format_status cfg data.mc_status data.players data.player_list
        data.motd data.time_label data.game_mode data.map_name data.host_is_up)
      chat

/-- The `!mcstatus` command handler `manual_status`: fetch a fresh
snapshot, render it with `format_status`, and reply with
`ctx.send` (always a fresh message).  The handler never references the
global `status_message`; threading the handle through unchanged makes
that frame condition explicit. -/
def manual_status (cfg : Config) (handle : Option Nat) (host_is_up : Bool)
    (q : QueryOutcome) (rcon : RconSession) : PublishAction × Option Nat :=
  let d := (fetch_server_status cfg host_is_up q rcon).1
  (PublishAction.send (format_status cfg d.mc_status d.players d.player_list
      d.motd d.time_label d.game_mode d.map_name d.host_is_up),
   handle)

/-- A concrete configuration used to instantiate universally quantified
theorems at specific inputs. -/
def cfg0 : Config :=
  { HOST_IP := "203.0.113.7", HOST_PORT := 22, MC_VERSION := "1.20.4", RCON_PASS := "hunter2" }

/-- A string built from a fixed part followed by anything else does not
start with a tag whose first `k` characters already disagree with the
fixed part. -/
lemma not_startsWith_of_fixed (fixed rest tag : String) (k : Nat)
    (hk : k ≤ tag.data.length) (hk2 : k ≤ fixed.data.length)
    (hne : tag.data.take k ≠ fixed.data.take k) :
    strStartsWith (fixed ++ rest) tag = false := by
  unfold strStartsWith
  rw [Bool.eq_false_iff]
  intro hb
  have hp : tag.data <+: (fixed ++ rest).data := List.isPrefixOf_iff_prefix.mp hb
  have h1 : tag.data = ((fixed ++ rest).data).take tag.data.length :=
    List.prefix_iff_eq_take.mp hp
  have h2 : tag.data.take k = ((fixed ++ rest).data).take k := by
    conv_lhs => rw [h1]
    rw [List.take_take, min_eq_left hk]
  have h3 : ((fixed ++ rest).data).take k = fixed.data.take k := by
    rw [String.data_append]
    exact List.take_append_of_le_length hk2
  exact hne (h2.trans h3)

/-- The joined rendering of a nonempty line list starts with the data of
its first line. -/
lemma joinLines_cons_data (l : String) (ls : List String) :
    ∃ t, (joinLines (l :: ls)).data = l.data ++ t := by
  cases ls with
  | nil => exact ⟨[], by simp [joinLines]⟩
  | cons m ms =>
    refine ⟨("\n" ++ joinLines (m :: ms)).data, ?_⟩
    simp [joinLines, String.data_append, List.append_assoc]

/-- `format_status_lines` always begins with the header line. -/
lemma format_status_lines_head (cfg : Config) (ms players : String)
    (pl : List String) (motd tl gm mn : Option String) (hup : Bool) :
    ∃ rest, format_status_lines cfg ms players pl motd tl gm mn hup =
      "# **Server Stats**" :: rest :=
  ⟨_, rfl⟩

/-- The rendered report always begins with the header's characters. -/
lemma format_status_data_head (cfg : Config) (ms players : String)
    (pl : List String) (motd tl gm mn : Option String) (hup : Bool) :
    ∃ t, (format_status cfg ms players pl motd tl gm mn hup).data =
      "# **Server Stats**".data ++ t := by
  obtain ⟨rest, hrest⟩ := format_status_lines_head cfg ms players pl motd tl gm mn hup
  unfold format_status
  rw [hrest]
  exact joinLines_cons_data _ _

/-- The full rendered report is never the host-down fallback banner:
the report starts with the header glyph, the banner with the red
circle. -/
lemma format_status_ne_fallback (cfg : Config) (ms players : String)
    (pl : List String) (motd tl gm mn : Option String) (hup : Bool) :
    format_status cfg ms players pl motd tl gm mn hup ≠ fallback_banner := by
  obtain ⟨t, ht⟩ := format_status_data_head cfg ms players pl motd tl gm mn hup
  intro heq
  have hd : fallback_banner.data = "# **Server Stats**".data ++ t := by
    rw [← heq, ht]
  have h1 : fallback_banner.data.head? = some '🔴' := rfl
  rw [hd] at h1
  have h2 : ("# **Server Stats**".data ++ t).head? = some '#' := rfl
  have h3 : ('#' : Char) = '🔴' := Option.some.inj (h2.symm.trans h1)
  exact absurd h3 (by decide)

end McBot

namespace McBot

set_option maxRecDepth 10000

/-- C1: the spec claims an RCON reply whose final token parses as an
integer tick outside `[0, 24000)` yields the "unavailable" sentinel.
The code has no range check: tick 24000 falls through to the `else`
branch and is labelled Night, and tick -1 is labelled Morning — both
are time-of-day labels, not the sentinel. -/
theorem c1_out_of_range_counterexample :
    get_time_of_day_via_rcon "hunter2" (RconSession.ok "The time is 24000") = "🌙 Night" ∧
    get_time_of_day_via_rcon "hunter2" (RconSession.ok "The time is 24000") ≠
      "⚠️ RCON unavailable" ∧
    get_time_of_day_via_rcon "hunter2" (RconSession.ok "The time is -1") = "🌞 Morning" := by
  decide

/-- C1 (amended): an out-of-range tick is not mapped to the
"unavailable" sentinel; it is bucketed by the same threshold chain, so
every tick ≥ 18000 (including 24000 and beyond) yields Night and every
negative tick yields Morning.  The "unavailable" sentinel arises only
from a session failure or a reply whose final token is missing or
non-numeric. -/
theorem c1_out_of_range_ticks_bucketed (pw resp : String) (t : Int) (hpw : pw ≠ "")
    (hparse : lastTokenInt resp = some t) :
    (24000 ≤ t → get_time_of_day_via_rcon pw (RconSession.ok resp) = "🌙 Night") ∧
    (t < 0 → get_time_of_day_via_rcon pw (RconSession.ok resp) = "🌞 Morning") ∧
    get_time_of_day_via_rcon pw RconSession.err = "⚠️ RCON unavailable" ∧
    (∀ resp2, lastTokenInt resp2 = none →
      get_time_of_day_via_rcon pw (RconSession.ok resp2) = "⚠️ RCON unavailable") := by
  refine ⟨fun h24 => ?_, fun hneg => ?_, ?_, fun resp2 hnone => ?_⟩
  · simp only [get_time_of_day_via_rcon, if_neg hpw, hparse]
    rw [if_neg (by omega), if_neg (by omega), if_neg (by omega)]
  · simp only [get_time_of_day_via_rcon, if_neg hpw, hparse]
    rw [if_pos (by omega)]
  · simp only [get_time_of_day_via_rcon, if_neg hpw]
  · simp only [get_time_of_day_via_rcon, if_neg hpw, hnone]

/-- C1 witness: the amended theorem applied at a concrete reply whose
final token is 24000. -/
theorem c1_witness :
    get_time_of_day_via_rcon "hunter2" (RconSession.ok "Time 24000") = "🌙 Night" :=
  (c1_out_of_range_ticks_bucketed "hunter2" "Time 24000" 24000
    (by decide) (by decide)).1 (by decide)

/-- C5: the tick bucketing is lower-inclusive on quarter-day
boundaries: ticks in `[0,6000)` map to Morning, `[6000,12000)` to
Midday, `[12000,18000)` to Evening, `[18000,24000)` to Night; in
particular 0 → Morning, 6000 → Midday, 12000 → Evening, 18000 → Night
and 23999 → Night. -/
theorem c5_bucket_boundaries (pw resp : String) (t : Int) (hpw : pw ≠ "")
    (hparse : lastTokenInt resp = some t) :
    (0 ≤ t → t < 6000 → get_time_of_day_via_rcon pw (RconSession.ok resp) = "🌞 Morning") ∧
    (6000 ≤ t → t < 12000 → get_time_of_day_via_rcon pw (RconSession.ok resp) = "☀️ Midday") ∧
    (12000 ≤ t → t < 18000 → get_time_of_day_via_rcon pw (RconSession.ok resp) = "🌇 Evening") ∧
    (18000 ≤ t → t < 24000 → get_time_of_day_via_rcon pw (RconSession.ok resp) = "🌙 Night") := by
  refine ⟨fun h0 h6 => ?_, fun h6 h12 => ?_, fun h12 h18 => ?_, fun h18 h24 => ?_⟩ <;>
    simp only [get_time_of_day_via_rcon, if_neg hpw, hparse]
  · rw [if_pos (by omega)]
  · rw [if_neg (by omega), if_pos (by omega)]
  · rw [if_neg (by omega), if_neg (by omega), if_pos (by omega)]
  · rw [if_neg (by omega), if_neg (by omega), if_neg (by omega)]

/-- C5 witness: the bucketing theorem applied at the boundary tick
6000, which is labelled Midday (lower-inclusive). -/
theorem c5_witness :
    get_time_of_day_via_rcon "hunter2" (RconSession.ok "The time is 6000") = "☀️ Midday" :=
  (c5_bucket_boundaries "hunter2" "The time is 6000" 6000
    (by decide) (by decide)).2.1 (by decide) (by decide)

/-- C6: with an empty/absent credential the resolver returns the exact
"not configured" sentinel literal, whatever the state of the RCON
session — the early return precedes any network interaction. -/
theorem c6_not_configured (session : RconSession) :
    get_time_of_day_via_rcon "" session = "🚫 RCON not configured" := rfl

/-- C6 witness: the theorem applied at a concrete failed session. -/
theorem c6_witness :
    get_time_of_day_via_rcon "" RconSession.err = "🚫 RCON not configured" :=
  c6_not_configured RconSession.err

/-- C4: when the host probe returns false the assembler returns the
all-defaults snapshot (game server offline, every derived field
absent, players "None", empty player list) with `host_is_up = false`,
and its external-call trace is the probe alone — neither the query
client nor the RCON time resolver is invoked. -/
theorem c4_host_down_skips_everything (cfg : Config) (q : QueryOutcome)
    (rcon : RconSession) :
    fetch_server_status cfg false q rcon =
      ({ host_is_up := false
         mc_status := "🔴 Offline or Unreachable"
         motd := none
         time_label := none
         game_mode := none
         map_name := none
         players := "None"
         player_list := [] }, [ExtCall.probe]) ∧
    ExtCall.query ∉ (fetch_server_status cfg false q rcon).2 ∧
    ExtCall.rcon ∉ (fetch_server_status cfg false q rcon).2 := by
  refine ⟨rfl, ?_, ?_⟩ <;> simp [fetch_server_status]

/-- C4 witness: the theorem applied at a concrete configuration and
outcome pair. -/
theorem c4_witness :
    ExtCall.query ∉ (fetch_server_status cfg0 false QueryOutcome.err RconSession.err).2 :=
  (c4_host_down_skips_everything cfg0 QueryOutcome.err RconSession.err).2.1

/-- C3: the spec claims the time resolver is attempted whenever the
host is up, even if the game-server query fails.  In the code the RCON
call sits inside the `try` block after both query awaits, so a query
failure skips it: with the host up and the query failing, the trace
contains no RCON call and the snapshot's time label stays absent. -/
theorem c3_counterexample :
    ExtCall.rcon ∉ (fetch_server_status cfg0 true QueryOutcome.err RconSession.err).2 ∧
    (fetch_server_status cfg0 true QueryOutcome.err RconSession.err).1.time_label = none := by
  decide

/-- C3 (amended): with the host up, the time resolver is attempted
exactly when the game-server query pair succeeds; a query failure
also skips time resolution, leaving the time label absent. -/
theorem c3_time_resolver_needs_query_success (cfg : Config) (st : StatusReply)
    (qu : QueryReply) (rcon : RconSession) :
    ExtCall.rcon ∈ (fetch_server_status cfg true (QueryOutcome.ok st qu) rcon).2 ∧
    (fetch_server_status cfg true (QueryOutcome.ok st qu) rcon).1.time_label =
      some (get_time_of_day_via_rcon cfg.RCON_PASS rcon) ∧
    ExtCall.rcon ∉ (fetch_server_status cfg true QueryOutcome.err rcon).2 ∧
    (fetch_server_status cfg true QueryOutcome.err rcon).1.time_label = none := by
  refine ⟨?_, rfl, ?_, rfl⟩ <;> simp [fetch_server_status]

/-- C3 witness: the amended theorem applied at a concrete successful
query. -/
theorem c3_witness :
    ExtCall.rcon ∈ (fetch_server_status cfg0 true
      (QueryOutcome.ok ⟨3, 20⟩ ⟨some "Welcome", "Welcome", some ["Alice"], some "world", some "SMP"⟩)
      RconSession.err).2 :=
  (c3_time_resolver_needs_query_success cfg0 ⟨3, 20⟩
    ⟨some "Welcome", "Welcome", some ["Alice"], some "world", some "SMP"⟩ RconSession.err).1

/-- C2: the spec claims that when the host is up but the query fails,
rendering the snapshot takes the online path with "Unknown"
substituted for each absent field.  In the code the query-failure
snapshot keeps `mc_status = "🔴 Offline or Unreachable"`, so the
renderer takes the offline branch: the rendered lines contain the
offline status line and none of the "Unknown"-substituted field
lines. -/
theorem c2_counterexample :
    let d := (fetch_server_status cfg0 true QueryOutcome.err RconSession.err).1
    let lines := format_status_lines cfg0 d.mc_status d.players d.player_list
      d.motd d.time_label d.game_mode d.map_name d.host_is_up
    d.host_is_up = true ∧
    "> 🔴 Offline or Unreachable" ∈ lines ∧
    "> MOTD: Unknown" ∉ lines ∧
    "> Time of Day: Unknown" ∉ lines ∧
    "> Map: Unknown" ∉ lines ∧
    "> Game Mode: Unknown" ∉ lines ∧
    "> Players: None" ∉ lines := by
  decide

/-- C2 (amended): when the host probe returns true but the game-server
query fails, the snapshot has `host_is_up = true` with every
game-server field at its default, and rendering it produces the
game-server-offline block (offline status line plus the version line)
together with an online host block — and the scheduled publisher still
publishes this full rendering, never the host-down fallback banner. -/
theorem c2_query_failure_renders_offline_block (cfg : Config) (rcon : RconSession) :
    (fetch_server_status cfg true QueryOutcome.err rcon).1 = offline_defaults true ∧
    format_status_lines cfg (offline_defaults true).mc_status (offline_defaults true).players
        (offline_defaults true).player_list (offline_defaults true).motd
        (offline_defaults true).time_label (offline_defaults true).game_mode
        (offline_defaults true).map_name (offline_defaults true).host_is_up =
      ["# **Server Stats**", "", "> **Minecraft Server**:", "> 🔴 Offline or Unreachable",
       "> Version: " ++ cfg.MC_VERSION, "", "> **Host Server**:", "> 🟢 Online",
       "> Host IP: " ++ cfg.HOST_IP, "> Host Port: " ++ toString cfg.HOST_PORT] ∧
    (∀ handle chat,
      PublishAction.edit fallback_banner ∉
        (update_status cfg handle (offline_defaults true) chat).attempts ∧
      PublishAction.send fallback_banner ∉
        (update_status cfg handle (offline_defaults true) chat).attempts) := by
  refine ⟨rfl, rfl, fun handle chat => ?_⟩
  have hne := format_status_ne_fallback cfg (offline_defaults true).mc_status
    (offline_defaults true).players (offline_defaults true).player_list
    (offline_defaults true).motd (offline_defaults true).time_label
    (offline_defaults true).game_mode (offline_defaults true).map_name
    (offline_defaults true).host_is_up
  cases handle <;> cases chat <;>
    simp_all [update_status, publish_edit_or_send, offline_defaults, eq_comm]

/-- C2 witness: the amended theorem applied at a concrete handle and
chat outcome. -/
theorem c2_witness :
    PublishAction.edit fallback_banner ∉
      (update_status cfg0 (some 5) (offline_defaults true) (ChatOutcome.ok 7)).attempts :=
  ((c2_query_failure_renders_offline_block cfg0 RconSession.err).2.2
    (some 5) (ChatOutcome.ok 7)).1

/-- C7: for a snapshot whose game-server status is offline (the
source's offline status literal), the rendered lines are exactly the
header, the offline status line, the version line and the host block —
and no line is one of the players / MOTD / time / map / game-mode
field lines; moreover for every snapshot whatsoever the rendering ends
with the host block: the `host_is_up` marker, the configured host
address and the configured host port. -/
theorem c7_offline_block_and_host_block (cfg : Config) :
    (∀ players pl motd tl gm mn hup,
      format_status_lines cfg "🔴 Offline or Unreachable" players pl motd tl gm mn hup =
        ["# **Server Stats**", "", "> **Minecraft Server**:", "> 🔴 Offline or Unreachable",
         "> Version: " ++ cfg.MC_VERSION, "", "> **Host Server**:",
         "> " ++ (if hup then "🟢 Online" else "🔴 Offline"),
         "> Host IP: " ++ cfg.HOST_IP, "> Host Port: " ++ toString cfg.HOST_PORT] ∧
      (∀ l ∈ format_status_lines cfg "🔴 Offline or Unreachable" players pl motd tl gm mn hup,
        ∀ tag ∈ ["> Players:", "> MOTD:", "> Time of Day:", "> Map:", "> Game Mode:"],
          strStartsWith l tag = false)) ∧
    (∀ ms players pl motd tl gm mn hup, ∃ front,
      format_status_lines cfg ms players pl motd tl gm mn hup =
        front ++ ["", "> **Host Server**:",
                  "> " ++ (if hup then "🟢 Online" else "🔴 Offline"),
                  "> Host IP: " ++ cfg.HOST_IP,
                  "> Host Port: " ++ toString cfg.HOST_PORT]) := by
  constructor
  · intro players pl motd tl gm mn hup
    have htempl : format_status_lines cfg "🔴 Offline or Unreachable" players pl motd tl gm mn hup =
        ["# **Server Stats**", "", "> **Minecraft Server**:", "> 🔴 Offline or Unreachable",
         "> Version: " ++ cfg.MC_VERSION, "", "> **Host Server**:",
         "> " ++ (if hup then "🟢 Online" else "🔴 Offline"),
         "> Host IP: " ++ cfg.HOST_IP, "> Host Port: " ++ toString cfg.HOST_PORT] := rfl
    refine ⟨htempl, ?_⟩
    intro l hl tag htag
    rw [htempl] at hl
    cases hup <;>
      fin_cases hl <;> fin_cases htag <;>
        first
          | decide
          | exact not_startsWith_of_fixed _ _ _ 3 (by decide) (by decide) (by decide)
  · intro ms players pl motd tl gm mn hup
    exact ⟨_, rfl⟩

/-- C7 witness: the theorem applied at a concrete offline snapshot,
checking that the version line is not a MOTD field line. -/
theorem c7_witness :
    strStartsWith ("> Version: " ++ cfg0.MC_VERSION) "> MOTD:" = false :=
  ((c7_offline_block_and_host_block cfg0).1 "None" [] none none none none true).2
    ("> Version: " ++ cfg0.MC_VERSION) (by decide) "> MOTD:" (by decide)

/-- C8: the renderer is a total pure function — rendering the same
snapshot twice gives the same string — and every absent optional
field has a defined substitution: on the online path, a `none` MOTD,
time label, map name or game mode renders as the literal "Unknown"
field line, and an empty player list renders as the "(none)"
placeholder. -/
theorem c8_renderer_deterministic_total (cfg : Config) (ms players : String)
    (pl : List String) (motd tl gm mn : Option String) (hup : Bool) :
    format_status cfg ms players pl motd tl gm mn hup =
      format_status cfg ms players pl motd tl gm mn hup ∧
    (strStartsWith ms "🟢" = true →
      ((motd = none →
        "> MOTD: Unknown" ∈ format_status_lines cfg ms players pl motd tl gm mn hup) ∧
       (tl = none →
        "> Time of Day: Unknown" ∈ format_status_lines cfg ms players pl motd tl gm mn hup) ∧
       (mn = none →
        "> Map: Unknown" ∈ format_status_lines cfg ms players pl motd tl gm mn hup) ∧
       (gm = none →
        "> Game Mode: Unknown" ∈ format_status_lines cfg ms players pl motd tl gm mn hup) ∧
       (pl = [] →
        "> Online Players: (none)" ∈ format_status_lines cfg ms players pl motd tl gm mn hup))) := by
  refine ⟨rfl, fun hon => ⟨?_, ?_, ?_, ?_, ?_⟩⟩ <;> intro h <;> subst h <;>
    simp [format_status_lines, hon, pyOrStr]

/-- C8 witness: the theorem applied at a concrete online snapshot with
an absent MOTD. -/
theorem c8_witness :
    "> MOTD: Unknown" ∈ format_status_lines cfg0 "🟢 Online" "3/20" [] none none none none true :=
  ((c8_renderer_deterministic_total cfg0 "🟢 Online" "3/20" [] none none none none true).2
    (by decide)).1 rfl

/-- C9: when the scheduled tick holds a message handle and the edit is
rejected by the chat platform, the exception is caught (the tick
returns normally), the error is logged, exactly one edit attempt is
made (no retry within the cycle), and the handle is left unchanged for
the next cycle — in both the host-down and host-up branches. -/
theorem c9_edit_failure_keeps_handle (cfg : Config) (m : Nat) (d : SnapshotData) :
    (update_status cfg (some m) d ChatOutcome.err).handle = some m ∧
    (update_status cfg (some m) d ChatOutcome.err).errorLogged = true ∧
    (∃ c, (update_status cfg (some m) d ChatOutcome.err).attempts = [PublishAction.edit c]) := by
  unfold update_status
  by_cases h : d.host_is_up = false
  · rw [if_pos h]
    exact ⟨rfl, rfl, fallback_banner, rfl⟩
  · rw [if_neg h]
    exact ⟨rfl, rfl, _, rfl⟩

/-- C9 witness: the theorem applied at a concrete handle and
snapshot. -/
theorem c9_witness :
    (update_status cfg0 (some 5) (offline_defaults false) ChatOutcome.err).handle = some 5 :=
  (c9_edit_failure_keeps_handle cfg0 5 (offline_defaults false)).1

/-- C10: the `!mcstatus` command replies with the full `format_status`
rendering of a fresh snapshot, sent as a new message; its reply is
independent of the global `status_message` handle, the handle is left
unmodified, and even when the host is down the reply is never the
host-down fallback banner. -/
theorem c10_manual_command_frame (cfg : Config) (h h2 : Option Nat) (hostUp : Bool)
    (q : QueryOutcome) (rcon : RconSession) :
    (manual_status cfg h hostUp q rcon).2 = h ∧
    (manual_status cfg h hostUp q rcon).1 = (manual_status cfg h2 hostUp q rcon).1 ∧
    (manual_status cfg h hostUp q rcon).1 =
      PublishAction.send (format_status cfg
        ((fetch_server_status cfg hostUp q rcon).1).mc_status
        ((fetch_server_status cfg hostUp q rcon).1).players
        ((fetch_server_status cfg hostUp q rcon).1).player_list
        ((fetch_server_status cfg hostUp q rcon).1).motd
        ((fetch_server_status cfg hostUp q rcon).1).time_label
        ((fetch_server_status cfg hostUp q rcon).1).game_mode
        ((fetch_server_status cfg hostUp q rcon).1).map_name
        ((fetch_server_status cfg hostUp q rcon).1).host_is_up) ∧
    (manual_status cfg h false q rcon).1 ≠ PublishAction.send fallback_banner := by
  refine ⟨rfl, rfl, rfl, fun heq => ?_⟩
  exact format_status_ne_fallback cfg _ _ _ _ _ _ _ _ (PublishAction.send.inj heq)

/-- C10 witness: the theorem applied at a concrete handle with the host
down. -/
theorem c10_witness :
    (manual_status cfg0 (some 5) false QueryOutcome.err RconSession.err).2 = some 5 :=
  (c10_manual_command_frame cfg0 (some 5) none false QueryOutcome.err RconSession.err).1

end McBot
